import Mathlib

/-!
# rt-priority-test

A shallow embedding of `hands-on/scheduling/rt-priority-test.c`: a program that asks the
operating system for the `SCHED_FIFO` real-time policy at priority 99 and then prints one
line forever.

The program is embedded as a step function on an explicit machine state.  Each step runs
one basic block of `main`:

* lines 9-15: build `param`, call `sched_setscheduler`, test the result against `-1`,
  and on failure call `perror` and `return 1`;
* lines 17-18: test the loop condition `1` and call `printf` once;
* line 20: `return 0` (the exit of the loop).

Everything the program does to the outside world is appended to a chronological trace.
The operating system is a parameter: what `sched_setscheduler` returns, what it leaves in
`errno`, what it does to the scheduling attributes of the process, and the text
`strerror` gives for an error number are all supplied by an `OS` value.
-/

namespace RtPriorityTest

/-! ## Constants of `<sched.h>` on Linux -/

/-- Policy identifier `SCHED_OTHER` of `<sched.h>` (Linux value). -/
def SCHED_OTHER : Int := 0

/-- Policy identifier `SCHED_FIFO` of `<sched.h>` (Linux value); the header is not part of
the repository. -/
def SCHED_FIFO : Int := 1

/-- Policy identifier `SCHED_RR` of `<sched.h>` (Linux value). -/
def SCHED_RR : Int := 2

/-- Policy identifier `SCHED_BATCH` of `<sched.h>` (Linux value). -/
def SCHED_BATCH : Int := 3

/-- Policy identifier `SCHED_IDLE` of `<sched.h>` (Linux value). -/
def SCHED_IDLE : Int := 5

/-- Policy identifier `SCHED_DEADLINE` of `<sched.h>` (Linux value). -/
def SCHED_DEADLINE : Int := 6

/-- Number of real-time priority levels of the Linux kernel (`MAX_RT_PRIO`). -/
def MAX_RT_PRIO : Int := 100

/-- Modelled from the spec: "the maximum [priority] supported by that class", which the
program never computes and whose definition is absent from the repository.  The values
are those of the Linux system call `sched_get_priority_max`: `MAX_RT_PRIO - 1` for the two
real-time classes, `0` for the time-shared classes, and `-1` (error) for an unknown
policy identifier. -/
def sched_get_priority_max (policy : Int) : Int :=
  if policy = SCHED_FIFO ∨ policy = SCHED_RR then MAX_RT_PRIO - 1
  else if policy = SCHED_DEADLINE ∨ policy = SCHED_OTHER ∨ policy = SCHED_BATCH
      ∨ policy = SCHED_IDLE then 0
  else -1

/-! ## Data -/

/-- The C type `struct sched_param` and its one member used by the program. -/
structure sched_param where
  sched_priority : Int
  deriving DecidableEq, Repr

/-- Scheduling attributes the operating system holds for the process: what an OS query
(`sched_getscheduler`, `sched_getparam`) would report. -/
structure SchedAttr where
  policy : Int
  priority : Int
  deriving DecidableEq, Repr

/-- Everything one call of `sched_setscheduler` gives back: the returned `int`, the value
of `errno` after the call, and the scheduling attributes of the process after the call. -/
structure SysOut where
  ret : Int
  errno : Int
  attr : SchedAttr
  deriving DecidableEq, Repr

/-- The operating system and C library behaviour the program depends on but does not
define.  `sched_setscheduler pid policy param attr` is the call made with the process
currently holding attributes `attr`; `strerror e` is the description of error number
`e`. -/
structure OS where
  sched_setscheduler : Int → Int → sched_param → SchedAttr → SysOut
  strerror : Int → String

/-- An externally visible action of the program. -/
inductive Event where
  | request (pid : Int) (policy : Int) (param : sched_param)
  | stderr (text : String)
  | stdout (text : String)
  deriving DecidableEq, Repr

/-- Control state: before the scheduling call, inside the output loop, or returned from
`main` with a status.  `Exited 1` is the state the spec calls `FailedExit`. -/
inductive Ctl where
  | Unconfigured
  | RunningRealtime
  | Exited (status : Int)
  deriving DecidableEq, Repr

/-- Machine state of a run. -/
structure State where
  ctl : Ctl
  errno : Int
  attr : SchedAttr
  trace : List Event
  deriving DecidableEq, Repr

/-- State at entry to `main`, for a process that starts with attributes `attr`. -/
def init (attr : SchedAttr) : State :=
  { ctl := Ctl.Unconfigured, errno := 0, attr := attr, trace := [] }

/-! ## Library calls -/

/-- C library `perror(s)`: writes to the error stream the text `s`, a colon and a blank
(both only when `s` is not empty), the description of the current `errno`, and a
newline.  This is the "single diagnostic line naming the failed operation and the
underlying OS-reported error" of the spec. -/
def perror (os : OS) (s : String) (st : State) : State :=
  let msg := os.strerror st.errno ++ "\n"
  { st with trace := st.trace ++
      [Event.stderr (if s.isEmpty then msg else s ++ ": " ++ msg)] }

/-- C library `printf(format)` for a format without conversion specifications, which is
the only way the program calls it: the format itself is written to standard output.
Write errors are not modelled; the program ignores the result of the call. -/
def printf (format : String) (st : State) : State :=
  { st with trace := st.trace ++ [Event.stdout format] }

/-! ## The program -/

/-- One basic block of `main`.  `none` means the program has returned. -/
def step (os : OS) (st : State) : Option State :=
  match st.ctl with
  | Ctl.Unconfigured =>
    -- struct sched_param param; param.sched_priority = 99;
    let param : sched_param := { sched_priority := 99 }
    -- sched_setscheduler(0, SCHED_FIFO, &param)
    let out := os.sched_setscheduler 0 SCHED_FIFO param st.attr
    let st1 : State :=
      { st with errno := out.errno, attr := out.attr,
                trace := st.trace ++ [Event.request 0 SCHED_FIFO param] }
    -- if (... == -1) { perror("sched_setscheduler"); return 1; }
    if out.ret = -1 then
      some { perror os "sched_setscheduler" st1 with ctl := Ctl.Exited 1 }
    else
      some { st1 with ctl := Ctl.RunningRealtime }
  | Ctl.RunningRealtime =>
    -- while (1) printf("Running real-time process...\n");
    if (1 : Int) ≠ 0 then
      some (printf "Running real-time process...\n" st)
    else
      -- return 0;
      some { st with ctl := Ctl.Exited 0 }
  | Ctl.Exited _ => none

/-- The state after `n` steps of `main` from `st`; a program that has returned stays where
it is. -/
def exec (os : OS) : Nat → State → State
  | 0, st => st
  | n + 1, st =>
    match step os st with
    | none => st
    | some st1 => exec os n st1

/-- The run of `main` observed after `n` steps, for a process starting with attributes
`attr`. -/
def main (os : OS) (attr : SchedAttr) (n : Nat) : State :=
  exec os n (init attr)

/-! ## Observations on a trace -/

/-- The scheduling requests of a trace, in order. -/
def requests : List Event → List (Int × Int × sched_param)
  | [] => []
  | Event.request pid policy param :: t => (pid, policy, param) :: requests t
  | _ :: t => requests t

/-- The writes to the error stream, in order. -/
def stderrWrites : List Event → List String
  | [] => []
  | Event.stderr text :: t => text :: stderrWrites t
  | _ :: t => stderrWrites t

/-- The writes to standard output, in order. -/
def stdoutWrites : List Event → List String
  | [] => []
  | Event.stdout text :: t => text :: stdoutWrites t
  | _ :: t => stdoutWrites t

/-- The text on the error stream. -/
def stderrText (t : List Event) : String := String.join (stderrWrites t)

/-- The text on standard output. -/
def stdoutText (t : List Event) : String := String.join (stdoutWrites t)

/-- Number of newline characters of a text, that is the number of complete lines. -/
def lineCount (s : String) : Nat := s.data.count '\n'

/-- The line the loop prints. -/
def outputLine : String := "Running real-time process...\n"

/-- The return value of the one call `main` makes, for a process starting with attributes
`attr`. -/
def callResult (os : OS) (attr : SchedAttr) : Int :=
  (os.sched_setscheduler 0 SCHED_FIFO { sched_priority := 99 } attr).ret

/-- The exit status of a run that has returned from `main`, `none` while it is running. -/
def exitStatus (st : State) : Option Int :=
  match st.ctl with
  | Ctl.Exited status => some status
  | _ => none

/-- Modelled from the spec: the contract of the operating system's scheduling call, which
is absent from the repository ("on success, subsequent execution is scheduled under the
requested real-time policy"; process identifier `0` means the calling process).  Either
the call returns `0` and the process holds the requested policy and priority, or it
returns `-1` and the attributes of the process are untouched. -/
def OS.Conforming (os : OS) : Prop :=
  ∀ (policy : Int) (param : sched_param) (attr : SchedAttr),
    ((os.sched_setscheduler 0 policy param attr).ret = 0 ∧
      (os.sched_setscheduler 0 policy param attr).attr =
        { policy := policy, priority := param.sched_priority }) ∨
    ((os.sched_setscheduler 0 policy param attr).ret = -1 ∧
      (os.sched_setscheduler 0 policy param attr).attr = attr)

/-! ## Two concrete operating systems -/

/-- Text of the error numbers used below, as in the C library. -/
def linuxStrerror (e : Int) : String :=
  if e = 1 then "Operation not permitted"
  else if e = 22 then "Invalid argument"
  else "Unknown error"

/-- An operating system that grants every request: the attributes become the requested
ones and `0` is returned. -/
def grantingOS : OS :=
  { sched_setscheduler := fun _ policy param _ =>
      { ret := 0, errno := 0, attr := { policy := policy, priority := param.sched_priority } }
    strerror := linuxStrerror }

/-- An operating system that rejects every request with `EPERM`: the attributes are left
alone and `-1` is returned. -/
def refusingOS : OS :=
  { sched_setscheduler := fun _ _ _ attr => { ret := -1, errno := 1, attr := attr }
    strerror := linuxStrerror }

/-- An operating system whose call returns the given value `r` (for instance the
previous policy identifier) after installing the requested attributes. -/
def returningOS (r : Int) : OS :=
  { sched_setscheduler := fun _ policy param _ =>
      { ret := r, errno := 0, attr := { policy := policy, priority := param.sched_priority } }
    strerror := linuxStrerror }

/-! ## Closed forms of the two kinds of run -/

/-- The state in which a failed run stops. -/
def failedState (os : OS) (attr : SchedAttr) : State :=
  let out := os.sched_setscheduler 0 SCHED_FIFO { sched_priority := 99 } attr
  { ctl := Ctl.Exited 1, errno := out.errno, attr := out.attr,
    trace := [Event.request 0 SCHED_FIFO { sched_priority := 99 },
      Event.stderr ("sched_setscheduler" ++ ": " ++ (os.strerror out.errno ++ "\n"))] }

/-- The state of a successful run after `n` iterations of the loop. -/
def runningState (os : OS) (attr : SchedAttr) (n : Nat) : State :=
  let out := os.sched_setscheduler 0 SCHED_FIFO { sched_priority := 99 } attr
  { ctl := Ctl.RunningRealtime, errno := out.errno, attr := out.attr,
    trace := Event.request 0 SCHED_FIFO { sched_priority := 99 } ::
      List.replicate n (Event.stdout outputLine) }

/-! ## Lemmas on observations -/

theorem requests_append (a b : List Event) : requests (a ++ b) = requests a ++ requests b := by
  induction a with
  | nil => rfl
  | cons e t ih => cases e <;> simp [requests, ih]

theorem stderrWrites_append (a b : List Event) :
    stderrWrites (a ++ b) = stderrWrites a ++ stderrWrites b := by
  induction a with
  | nil => rfl
  | cons e t ih => cases e <;> simp [stderrWrites, ih]

theorem stdoutWrites_append (a b : List Event) :
    stdoutWrites (a ++ b) = stdoutWrites a ++ stdoutWrites b := by
  induction a with
  | nil => rfl
  | cons e t ih => cases e <;> simp [stdoutWrites, ih]

theorem requests_replicate_stdout (n : Nat) (s : String) :
    requests (List.replicate n (Event.stdout s)) = [] := by
  induction n with
  | zero => rfl
  | succ n ih => simp [List.replicate_succ, requests, ih]

theorem stderrWrites_replicate_stdout (n : Nat) (s : String) :
    stderrWrites (List.replicate n (Event.stdout s)) = [] := by
  induction n with
  | zero => rfl
  | succ n ih => simp [List.replicate_succ, stderrWrites, ih]

theorem stdoutWrites_replicate_stdout (n : Nat) (s : String) :
    stdoutWrites (List.replicate n (Event.stdout s)) = List.replicate n s := by
  induction n with
  | zero => rfl
  | succ n ih => simp [List.replicate_succ, stdoutWrites, ih]

/-! ## Lemmas on the program -/

theorem step_exited (os : OS) (st : State) (c : Int) (h : st.ctl = Ctl.Exited c) :
    step os st = none := by
  simp [step, h]

theorem step_running (os : OS) (st : State) (h : st.ctl = Ctl.RunningRealtime) :
    step os st = some { st with trace := st.trace ++ [Event.stdout outputLine] } := by
  simp [step, h, printf, outputLine]

theorem step_init_failed (os : OS) (attr : SchedAttr) (h : callResult os attr = -1) :
    step os (init attr) = some (failedState os attr) := by
  unfold callResult at h
  have hne : "sched_setscheduler".isEmpty = false := by decide
  simp only [step, init, h, perror, failedState, hne]
  simp

theorem step_init_granted (os : OS) (attr : SchedAttr) (h : callResult os attr ≠ -1) :
    step os (init attr) = some (runningState os attr 0) := by
  unfold callResult at h
  simp [step, init, h, runningState]

theorem exec_exited (os : OS) (n : Nat) (st : State) (c : Int) (h : st.ctl = Ctl.Exited c) :
    exec os n st = st := by
  cases n with
  | zero => rfl
  | succ n => simp [exec, step_exited os st c h]

theorem exec_running (os : OS) (n : Nat) (st : State) (h : st.ctl = Ctl.RunningRealtime) :
    exec os n st =
      { st with trace := st.trace ++ List.replicate n (Event.stdout outputLine) } := by
  induction n generalizing st with
  | zero => simp [exec]
  | succ n ih =>
    simp only [exec, step_running os st h]
    rw [ih { st with trace := st.trace ++ [Event.stdout outputLine] } h]
    simp [List.replicate_succ]

theorem main_zero (os : OS) (attr : SchedAttr) : main os attr 0 = init attr := rfl

theorem main_failed (os : OS) (attr : SchedAttr) (h : callResult os attr = -1) (n : Nat) :
    main os attr (n + 1) = failedState os attr := by
  simp only [main, exec, step_init_failed os attr h]
  exact exec_exited os n _ 1 rfl

theorem main_granted (os : OS) (attr : SchedAttr) (h : callResult os attr ≠ -1) (n : Nat) :
    main os attr (n + 1) = runningState os attr n := by
  simp only [main, exec, step_init_granted os attr h]
  rw [exec_running os n _ rfl]
  simp [runningState]

theorem stderrWrites_failedState (os : OS) (attr : SchedAttr) :
    stderrWrites (failedState os attr).trace =
      ["sched_setscheduler" ++ ": " ++ (os.strerror
        (os.sched_setscheduler 0 SCHED_FIFO { sched_priority := 99 } attr).errno ++ "\n")] := by
  simp [failedState, stderrWrites]

theorem requests_failedState (os : OS) (attr : SchedAttr) :
    requests (failedState os attr).trace = [(0, SCHED_FIFO, { sched_priority := 99 })] := by
  simp [failedState, requests]

theorem requests_runningState (os : OS) (attr : SchedAttr) (n : Nat) :
    requests (runningState os attr n).trace = [(0, SCHED_FIFO, { sched_priority := 99 })] := by
  simp [runningState, requests, requests_replicate_stdout]

theorem stdoutWrites_runningState (os : OS) (attr : SchedAttr) (n : Nat) :
    stdoutWrites (runningState os attr n).trace = List.replicate n outputLine := by
  simp [runningState, stdoutWrites, stdoutWrites_replicate_stdout]

theorem stderrWrites_runningState (os : OS) (attr : SchedAttr) (n : Nat) :
    stderrWrites (runningState os attr n).trace = [] := by
  simp [runningState, stderrWrites, stderrWrites_replicate_stdout]

theorem join_singleton_ne_empty (a b : String) (h : 0 < a.length) :
    String.join [a ++ b] ≠ "" := by
  intro hc
  have hd := congrArg String.data hc
  rw [String.data_join] at hd
  simp only [List.map_cons, List.map_nil, List.flatten_cons, List.flatten_nil,
    List.append_nil, String.data_append] at hd
  have ha : a.data = [] := (List.append_eq_nil.mp hd).1
  have hl : a.length = 0 := by
    show a.data.length = 0
    rw [ha]; rfl
  omega

theorem lineCount_join_replicate (n : Nat) :
    lineCount (String.join (List.replicate n outputLine)) = n := by
  induction n with
  | zero => rfl
  | succ n ih =>
    have h1 : List.count (Char.ofNat 10) outputLine.data = 1 := by decide
    simp only [lineCount, String.data_join] at ih ⊢
    simp only [List.replicate_succ, List.map_cons, List.flatten_cons, List.count_append]
    rw [ih]
    have h2 : List.count '\n' outputLine.data = 1 := h1
    omega

theorem lineCount_diagnostic (a b c m : String) :
    lineCount (String.join [a ++ b ++ (m ++ c)]) =
      lineCount a + lineCount b + lineCount m + lineCount c := by
  unfold lineCount
  simp only [String.data_join, List.map_cons, List.map_nil, List.flatten_cons,
    List.flatten_nil, List.append_nil, String.data_append, List.count_append]
  omega

theorem grantingOS_conforming : grantingOS.Conforming := by
  intro policy param attr
  exact Or.inl ⟨rfl, rfl⟩

/-! ## The claims -/

/-- C1: whenever `sched_setscheduler` returns `-1`, the run has returned with exit status 1
after its first step and stays there, the text on the error stream is not empty, nothing
is ever written to standard output (zero lines), and the output loop is never entered. -/
theorem C1_failure_path (os : OS) (attr : SchedAttr) (h : callResult os attr = -1) :
    (∀ n, exitStatus (main os attr (n + 1)) = some 1 ∧ step os (main os attr (n + 1)) = none) ∧
    (∀ n, stderrText (main os attr (n + 1)).trace ≠ "") ∧
    (∀ n, stdoutWrites (main os attr n).trace = [] ∧
      lineCount (stdoutText (main os attr n).trace) = 0) ∧
    (∀ n, (main os attr n).ctl ≠ Ctl.RunningRealtime) := by
  have hz : stdoutWrites (failedState os attr).trace = [] := by
    simp [failedState, stdoutWrites]
  refine ⟨fun n => ?_, fun n => ?_, fun n => ?_, fun n => ?_⟩
  · rw [main_failed os attr h n]
    exact ⟨rfl, step_exited os _ 1 rfl⟩
  · rw [main_failed os attr h n]
    unfold stderrText
    rw [stderrWrites_failedState, String.append_assoc]
    exact join_singleton_ne_empty _ _ (by decide)
  · cases n with
    | zero => exact ⟨rfl, rfl⟩
    | succ n =>
      rw [main_failed os attr h n]
      unfold stdoutText
      rw [hz]
      exact ⟨rfl, rfl⟩
  · cases n with
    | zero => simp [main_zero, init]
    | succ n =>
      rw [main_failed os attr h n]
      simp [failedState]

/-- Witness of C1 on an operating system that refuses the request with `EPERM`. -/
theorem C1_failure_path_witness :
    callResult refusingOS ⟨0, 0⟩ = -1 ∧
    exitStatus (main refusingOS ⟨0, 0⟩ 1) = some 1 ∧
    stderrText (main refusingOS ⟨0, 0⟩ 1).trace ≠ "" ∧
    stdoutWrites (main refusingOS ⟨0, 0⟩ 5).trace = [] :=
  ⟨by decide, ((C1_failure_path refusingOS ⟨0, 0⟩ (by decide)).1 0).1,
    (C1_failure_path refusingOS ⟨0, 0⟩ (by decide)).2.1 0,
    ((C1_failure_path refusingOS ⟨0, 0⟩ (by decide)).2.2.1 5).1⟩

/-- C2: in every run, whatever the operating system answers and whatever the process
starts with, the requests issued are the single request for process identifier 0, policy
`SCHED_FIFO` and the priority that is the maximum of the `SCHED_FIFO` class; two runs
always issue the same request. -/
theorem C2_request_constant (os : OS) (attr : SchedAttr) (n : Nat) :
    requests (main os attr (n + 1)).trace =
      [(0, SCHED_FIFO, { sched_priority := sched_get_priority_max SCHED_FIFO })] ∧
    ∀ (os2 : OS) (attr2 : SchedAttr) (m : Nat),
      requests (main os2 attr2 (m + 1)).trace = requests (main os attr (n + 1)).trace := by
  have key : ∀ (o : OS) (a : SchedAttr) (k : Nat),
      requests (main o a (k + 1)).trace = [(0, SCHED_FIFO, { sched_priority := 99 })] := by
    intro o a k
    by_cases h : callResult o a = -1
    · rw [main_failed o a h k, requests_failedState]
    · rw [main_granted o a h k, requests_runningState]
  have hmax : sched_get_priority_max SCHED_FIFO = 99 := by decide
  refine ⟨?_, fun os2 attr2 m => ?_⟩
  · rw [key, hmax]
  · rw [key, key]

/-- C3: on an operating system that honours the contract of the scheduling call, a run
whose request is granted has, right after its first step, the attributes policy
`SCHED_FIFO` and priority the class maximum, has written nothing to standard output yet,
is in the output loop, keeps these attributes from then on, and its next step emits the
first output line. -/
theorem C3_success_path (os : OS) (attr : SchedAttr) (hos : os.Conforming)
    (h : callResult os attr = 0) :
    (main os attr 1).attr =
      { policy := SCHED_FIFO, priority := sched_get_priority_max SCHED_FIFO } ∧
    stdoutWrites (main os attr 1).trace = [] ∧
    (main os attr 1).ctl = Ctl.RunningRealtime ∧
    (∀ n, (main os attr (n + 1)).attr =
      { policy := SCHED_FIFO, priority := sched_get_priority_max SCHED_FIFO }) ∧
    stdoutWrites (main os attr 2).trace = [outputLine] := by
  have hne : callResult os attr ≠ -1 := by rw [h]; decide
  have hmax : sched_get_priority_max SCHED_FIFO = 99 := by decide
  have hattr : (os.sched_setscheduler 0 SCHED_FIFO { sched_priority := 99 } attr).attr =
      { policy := SCHED_FIFO, priority := 99 } := by
    rcases hos SCHED_FIFO { sched_priority := 99 } attr with ⟨_, ha⟩ | ⟨hr, _⟩
    · exact ha
    · exact absurd hr hne
  have hall : ∀ n, (main os attr (n + 1)).attr = { policy := SCHED_FIFO, priority := 99 } := by
    intro n
    rw [main_granted os attr hne n]
    exact hattr
  rw [hmax]
  refine ⟨hall 0, ?_, ?_, hall, ?_⟩
  · rw [main_granted os attr hne 0, stdoutWrites_runningState]; rfl
  · rw [main_granted os attr hne 0]; rfl
  · rw [main_granted os attr hne 1, stdoutWrites_runningState]; rfl

/-- Witness of C3 on an operating system that grants the request, for a process that
starts in the time-shared class. -/
theorem C3_success_path_witness :
    grantingOS.Conforming ∧ callResult grantingOS ⟨SCHED_OTHER, 0⟩ = 0 ∧
    (main grantingOS ⟨SCHED_OTHER, 0⟩ 1).attr = { policy := 1, priority := 99 } ∧
    (main grantingOS ⟨SCHED_OTHER, 0⟩ 1).ctl = Ctl.RunningRealtime :=
  ⟨grantingOS_conforming, by decide,
    (C3_success_path grantingOS ⟨SCHED_OTHER, 0⟩ grantingOS_conforming (by decide)).1,
    (C3_success_path grantingOS ⟨SCHED_OTHER, 0⟩ grantingOS_conforming (by decide)).2.2.1⟩

/-- C4: in every run, once the first step has been taken the trace holds exactly one
scheduling request, at every later time and whatever the outcome: the trace is that
request followed by events none of which is a request, and before the first step no
request has been made. -/
theorem C4_single_request (os : OS) (attr : SchedAttr) (n : Nat) :
    (requests (main os attr (n + 1)).trace).length = 1 ∧
    (∃ rest, (main os attr (n + 1)).trace =
        Event.request 0 SCHED_FIFO { sched_priority := 99 } :: rest ∧ requests rest = []) ∧
    requests (main os attr 0).trace = [] := by
  by_cases h : callResult os attr = -1
  · rw [main_failed os attr h n]
    exact ⟨by rw [requests_failedState]; rfl, ⟨_, rfl, rfl⟩, rfl⟩
  · rw [main_granted os attr h n]
    exact ⟨by rw [requests_runningState]; rfl,
      ⟨_, rfl, requests_replicate_stdout n outputLine⟩, rfl⟩

/-- C5: no run ever has exit status 0; a run that has returned has exit status 1; a run
returns (with status 1) if and only if `sched_setscheduler` returned `-1`; and when the
call returned anything else the run has not returned after any number of steps and can
always take a further step. -/
theorem C5_exit_codes (os : OS) (attr : SchedAttr) :
    (∀ n, exitStatus (main os attr n) ≠ some 0) ∧
    (∀ n c, exitStatus (main os attr n) = some c → c = 1) ∧
    ((∃ n, exitStatus (main os attr n) = some 1) ↔ callResult os attr = -1) ∧
    ((∀ n, exitStatus (main os attr n) = none ∧ step os (main os attr n) ≠ none) ↔
      callResult os attr ≠ -1) := by
  have hone : ∀ n c, exitStatus (main os attr n) = some c → c = 1 := by
    intro n c hc
    cases n with
    | zero => simp [main_zero, init, exitStatus] at hc
    | succ n =>
      by_cases h : callResult os attr = -1
      · rw [main_failed os attr h n] at hc
        simp [failedState, exitStatus] at hc
        exact hc.symm
      · rw [main_granted os attr h n] at hc
        simp [runningState, exitStatus] at hc
  have hrun : callResult os attr ≠ -1 →
      ∀ n, exitStatus (main os attr n) = none ∧ step os (main os attr n) ≠ none := by
    intro h n
    cases n with
    | zero =>
      refine ⟨rfl, ?_⟩
      rw [main_zero, step_init_granted os attr h]
      simp
    | succ n =>
      rw [main_granted os attr h n]
      refine ⟨rfl, ?_⟩
      rw [step_running os _ rfl]
      simp
  refine ⟨fun n hc => ?_, hone, ⟨?_, fun h => ⟨1, ?_⟩⟩, ⟨fun hall h => ?_, hrun⟩⟩
  · have := hone n 0 hc
    omega
  · rintro ⟨n, hn⟩
    by_contra h
    rw [(hrun h n).1] at hn
    exact absurd hn (by simp)
  · rw [main_failed os attr h 0]; rfl
  · have h1 := (hall 1).1
    rw [main_failed os attr h 0] at h1
    simp [failedState, exitStatus] at h1

/-- C6: when the call did not return `-1`, after the configuration step and `n` further
iterations of the loop the whole trace is the one request followed by exactly `n` writes
of the fixed line "Running real-time process..." with its newline; so standard output
holds `n` copies of that line (`n` lines of text), and nothing was written to the error
stream. -/
theorem C6_stdout_lines (os : OS) (attr : SchedAttr) (h : callResult os attr ≠ -1) (n : Nat) :
    (main os attr (n + 1)).trace =
      Event.request 0 SCHED_FIFO { sched_priority := 99 } ::
        List.replicate n (Event.stdout "Running real-time process...\n") ∧
    stdoutWrites (main os attr (n + 1)).trace =
      List.replicate n "Running real-time process...\n" ∧
    stdoutText (main os attr (n + 1)).trace =
      String.join (List.replicate n "Running real-time process...\n") ∧
    lineCount (stdoutText (main os attr (n + 1)).trace) = n ∧
    stderrWrites (main os attr (n + 1)).trace = [] := by
  rw [main_granted os attr h n]
  unfold stdoutText
  rw [stdoutWrites_runningState, stderrWrites_runningState]
  exact ⟨rfl, rfl, rfl, lineCount_join_replicate n, rfl⟩

/-- Witness of C6: three iterations on an operating system that grants the request. -/
theorem C6_stdout_lines_witness :
    callResult grantingOS ⟨0, 0⟩ ≠ -1 ∧
    stdoutWrites (main grantingOS ⟨0, 0⟩ (3 + 1)).trace =
      List.replicate 3 "Running real-time process...\n" :=
  ⟨by decide, (C6_stdout_lines grantingOS ⟨0, 0⟩ (by decide) 3).2.1⟩

/-- C7: something is written to the error stream at some point of a run if and only if
`sched_setscheduler` returned `-1`; in that case the error stream holds, from the first
step on, exactly one write: the text "sched_setscheduler", a colon and a blank, the
operating system's description of the `errno` left by the call, and a newline, which is
exactly one line whenever that description contains no newline; otherwise the error
stream stays empty for ever. -/
theorem C7_stderr_diagnostic (os : OS) (attr : SchedAttr) :
    ((∃ n, stderrWrites (main os attr n).trace ≠ []) ↔ callResult os attr = -1) ∧
    (callResult os attr = -1 → ∀ n, stderrWrites (main os attr (n + 1)).trace =
      ["sched_setscheduler" ++ ": " ++ (os.strerror
        (os.sched_setscheduler 0 SCHED_FIFO { sched_priority := 99 } attr).errno ++ "\n")]) ∧
    (callResult os attr = -1 →
      lineCount (os.strerror
        (os.sched_setscheduler 0 SCHED_FIFO { sched_priority := 99 } attr).errno) = 0 →
      ∀ n, lineCount (stderrText (main os attr (n + 1)).trace) = 1) ∧
    (callResult os attr ≠ -1 → ∀ n, stderrWrites (main os attr n).trace = []) := by
  have hok : callResult os attr ≠ -1 → ∀ n, stderrWrites (main os attr n).trace = [] := by
    intro h n
    cases n with
    | zero => rfl
    | succ n => rw [main_granted os attr h n, stderrWrites_runningState]
  refine ⟨⟨?_, fun h => ⟨1, ?_⟩⟩, fun h n => ?_, fun h hnl n => ?_, hok⟩
  · rintro ⟨n, hn⟩
    by_contra h
    exact hn (hok h n)
  · rw [main_failed os attr h 0, stderrWrites_failedState]
    simp
  · rw [main_failed os attr h n, stderrWrites_failedState]
  · rw [main_failed os attr h n]
    unfold stderrText
    rw [stderrWrites_failedState]
    rw [lineCount_diagnostic]
    have h1 : lineCount "sched_setscheduler" = 0 := by decide
    have h2 : lineCount ": " = 0 := by decide
    have h3 : lineCount "\n" = 1 := by decide
    omega

/-- Witness of C7 on an operating system that refuses the request with `EPERM`. -/
theorem C7_stderr_diagnostic_witness :
    callResult refusingOS ⟨0, 0⟩ = -1 ∧
    stderrWrites (main refusingOS ⟨0, 0⟩ 1).trace =
      ["sched_setscheduler: Operation not permitted\n"] ∧
    lineCount (stderrText (main refusingOS ⟨0, 0⟩ 1).trace) = 1 :=
  ⟨by decide, (C7_stderr_diagnostic refusingOS ⟨0, 0⟩).2.1 (by decide) 0,
    (C7_stderr_diagnostic refusingOS ⟨0, 0⟩).2.2.1 (by decide) (by decide) 0⟩

/-- C8: the run starts in `Unconfigured`; every step of the program is one of three
transitions: `Unconfigured` to `RunningRealtime` (only when the call did not return `-1`,
writing no output), `Unconfigured` to `Exited 1` (only when it returned `-1`, writing no
output), or `RunningRealtime` to itself appending exactly one output line; from
`Unconfigured` a step always exists and its target is decided by the result of the call;
from `RunningRealtime` a step always exists; a returned program has no successor; in every
reachable state standard output is non-empty only in `RunningRealtime`; and from
`RunningRealtime` every later state is `RunningRealtime`, so never `Exited 1`. -/
theorem C8_state_machine (os : OS) :
    (∀ attr, (init attr).ctl = Ctl.Unconfigured) ∧
    (∀ st st1, step os st = some st1 →
      (st.ctl = Ctl.Unconfigured ∧ st1.ctl = Ctl.RunningRealtime ∧
        callResult os st.attr ≠ -1 ∧ stdoutWrites st1.trace = stdoutWrites st.trace) ∨
      (st.ctl = Ctl.Unconfigured ∧ st1.ctl = Ctl.Exited 1 ∧
        callResult os st.attr = -1 ∧ stdoutWrites st1.trace = stdoutWrites st.trace) ∨
      (st.ctl = Ctl.RunningRealtime ∧ st1.ctl = Ctl.RunningRealtime ∧
        st1.trace = st.trace ++ [Event.stdout outputLine])) ∧
    (∀ st, st.ctl = Ctl.Unconfigured →
      ∃ st1, step os st = some st1 ∧
        (st1.ctl = Ctl.RunningRealtime ↔ callResult os st.attr ≠ -1) ∧
        (st1.ctl = Ctl.Exited 1 ↔ callResult os st.attr = -1)) ∧
    (∀ st, st.ctl = Ctl.RunningRealtime → ∃ st1, step os st = some st1) ∧
    (∀ st c, st.ctl = Ctl.Exited c → step os st = none) ∧
    (∀ attr n, stdoutWrites (main os attr n).trace ≠ [] →
      (main os attr n).ctl = Ctl.RunningRealtime) ∧
    (∀ st n, st.ctl = Ctl.RunningRealtime →
      (exec os n st).ctl = Ctl.RunningRealtime ∧ (exec os n st).ctl ≠ Ctl.Exited 1) := by
  refine ⟨fun _ => rfl, ?_, ?_, ?_, fun st c h => step_exited os st c h, ?_, ?_⟩
  · intro st st1 hstep
    rcases st with ⟨ctl, errno, attr, trace⟩
    cases ctl with
    | Unconfigured =>
      by_cases hr : callResult os attr = -1
      · right; left
        have hr2 := hr
        unfold callResult at hr2
        simp only [step, hr2, if_true, Option.some.injEq] at hstep
        subst hstep
        refine ⟨rfl, rfl, hr, ?_⟩
        simp [perror, stdoutWrites_append, stdoutWrites]
      · left
        have hr2 := hr
        unfold callResult at hr2
        simp only [step, hr2, if_false, Option.some.injEq] at hstep
        subst hstep
        refine ⟨rfl, rfl, hr, ?_⟩
        simp [stdoutWrites_append, stdoutWrites]
    | RunningRealtime =>
      right; right
      rw [step_running os _ rfl] at hstep
      simp only [Option.some.injEq] at hstep
      subst hstep
      exact ⟨rfl, rfl, rfl⟩
    | Exited c =>
      rw [step_exited os _ c rfl] at hstep
      exact absurd hstep (by simp)
  · intro st hst
    rcases st with ⟨ctl, errno, attr, trace⟩
    simp only at hst
    subst hst
    by_cases hr : callResult os attr = -1
    · have hr2 := hr
      unfold callResult at hr2
      obtain ⟨st1, hs, hc⟩ : ∃ st1, step os ⟨Ctl.Unconfigured, errno, attr, trace⟩ = some st1 ∧
          st1.ctl = Ctl.Exited 1 := by
        simp only [step, hr2, if_true]
        exact ⟨_, rfl, rfl⟩
      exact ⟨st1, hs, by simp [hr, hc], by simp [hr, hc]⟩
    · have hr2 := hr
      unfold callResult at hr2
      obtain ⟨st1, hs, hc⟩ : ∃ st1, step os ⟨Ctl.Unconfigured, errno, attr, trace⟩ = some st1 ∧
          st1.ctl = Ctl.RunningRealtime := by
        simp only [step, hr2, if_false]
        exact ⟨_, rfl, rfl⟩
      exact ⟨st1, hs, by simp [hr, hc], by simp [hr, hc]⟩
  · intro st hst
    exact ⟨_, step_running os st hst⟩
  · intro attr n hout
    cases n with
    | zero => exact absurd rfl hout
    | succ n =>
      by_cases hr : callResult os attr = -1
      · rw [main_failed os attr hr n] at hout
        exact absurd (by simp [failedState, stdoutWrites]) hout
      · rw [main_granted os attr hr n]; rfl
  · intro st n hst
    rw [exec_running os n st hst]
    simp [hst]

/-- Witness of C8: from the loop state reached on a granting operating system, four more
steps end in the loop state, and the refused run has no successor. -/
theorem C8_state_machine_witness :
    (main grantingOS ⟨0, 0⟩ 1).ctl = Ctl.RunningRealtime ∧
    (exec grantingOS 4 (main grantingOS ⟨0, 0⟩ 1)).ctl = Ctl.RunningRealtime ∧
    step refusingOS (main refusingOS ⟨0, 0⟩ 1) = none :=
  ⟨by decide,
    ((C8_state_machine grantingOS).2.2.2.2.2.2 (main grantingOS ⟨0, 0⟩ 1) 4 (by decide)).1,
    (C8_state_machine refusingOS).2.2.2.2.1 (main refusingOS ⟨0, 0⟩ 1) 1 (by decide)⟩

/-- C9: once the call has not returned `-1`, time being counted in steps of the program,
every interval of `d ≥ 1` steps that starts after the configuration step adds exactly `d`
lines, hence at least one, to standard output, and at the end of the interval the program
has not returned and can take a further step: it only stops when stopped from outside. -/
theorem C9_liveness (os : OS) (attr : SchedAttr) (h : callResult os attr ≠ -1)
    (n d : Nat) (hd : 0 < d) :
    lineCount (stdoutText (main os attr (n + 1)).trace) <
      lineCount (stdoutText (main os attr (n + 1 + d)).trace) ∧
    lineCount (stdoutText (main os attr (n + 1 + d)).trace) =
      lineCount (stdoutText (main os attr (n + 1)).trace) + d ∧
    exitStatus (main os attr (n + 1 + d)) = none ∧
    step os (main os attr (n + 1 + d)) ≠ none := by
  have hnd : n + 1 + d = (n + d) + 1 := by omega
  have hlines : ∀ k, lineCount (stdoutText (main os attr (k + 1)).trace) = k := by
    intro k
    rw [main_granted os attr h k]
    unfold stdoutText
    rw [stdoutWrites_runningState]
    exact lineCount_join_replicate k
  rw [hnd, hlines, hlines, main_granted os attr h (n + d)]
  refine ⟨by omega, rfl, rfl, ?_⟩
  rw [step_running os _ rfl]
  simp

/-- Witness of C9: on a granting operating system, the two steps after the fourth add
lines to standard output. -/
theorem C9_liveness_witness :
    callResult grantingOS ⟨0, 0⟩ ≠ -1 ∧ 0 < 2 ∧
    lineCount (stdoutText (main grantingOS ⟨0, 0⟩ (3 + 1)).trace) <
      lineCount (stdoutText (main grantingOS ⟨0, 0⟩ (3 + 1 + 2)).trace) :=
  ⟨by decide, by decide, (C9_liveness grantingOS ⟨0, 0⟩ (by decide) 3 2 (by decide)).1⟩

/-- C10: let `r` be the integer `sched_setscheduler` returns.  After the first step the
run has exit status 1 with a diagnostic on the error stream if and only if `r = -1`, and
it is in the output loop if and only if `r ≠ -1`; for every `r` other than `-1` (zero,
positive, or negative) the run stays in the loop, prints one line per step and never
writes to the error stream. -/
theorem C10_failure_iff_minus_one (os : OS) (attr : SchedAttr) (r : Int)
    (hr : callResult os attr = r) :
    ((exitStatus (main os attr 1) = some 1 ∧ stderrWrites (main os attr 1).trace ≠ []) ↔
      r = -1) ∧
    ((main os attr 1).ctl = Ctl.RunningRealtime ↔ r ≠ -1) ∧
    (r ≠ -1 → ∀ n, (main os attr (n + 1)).ctl = Ctl.RunningRealtime ∧
      stdoutWrites (main os attr (n + 1)).trace = List.replicate n outputLine ∧
      stderrWrites (main os attr (n + 1)).trace = []) := by
  subst hr
  by_cases h : callResult os attr = -1
  · rw [main_failed os attr h 0]
    refine ⟨⟨fun _ => h, fun _ => ⟨rfl, ?_⟩⟩, ⟨fun hc => ?_, fun hc => absurd h hc⟩,
      fun hc => absurd h hc⟩
    · rw [stderrWrites_failedState]; simp
    · simp [failedState] at hc
  · refine ⟨⟨fun hc => ?_, fun hc => absurd hc h⟩, ⟨fun _ => h, fun _ => ?_⟩, fun _ n => ?_⟩
    · rw [main_granted os attr h 0] at hc
      simp [runningState, exitStatus] at hc
    · rw [main_granted os attr h 0]; rfl
    · rw [main_granted os attr h n]
      exact ⟨rfl, stdoutWrites_runningState os attr n, stderrWrites_runningState os attr n⟩

/-- Witness of C10: a call that returns 7, and one that returns -2, both lead into the
output loop. -/
theorem C10_failure_iff_minus_one_witness :
    callResult (returningOS 7) ⟨0, 0⟩ = 7 ∧
    (main (returningOS 7) ⟨0, 0⟩ 1).ctl = Ctl.RunningRealtime ∧
    (main (returningOS (-2)) ⟨0, 0⟩ 1).ctl = Ctl.RunningRealtime :=
  ⟨by decide,
    (C10_failure_iff_minus_one (returningOS 7) ⟨0, 0⟩ 7 (by decide)).2.1.mpr (by decide),
    (C10_failure_iff_minus_one (returningOS (-2)) ⟨0, 0⟩ (-2) (by decide)).2.1.mpr (by decide)⟩

end RtPriorityTest
